import Mathlib

/-
Shallow embedding of src/glimpse/util/zmq_cluster.py (glimpse-project).

The module implements a ventilator / worker / sink task-dispatch fabric over
ZMQ sockets.  The definitions below translate the pure decision logic of that
file: dictionary merging in Connect.MakeSocket, the ventilator's connect-delay
arithmetic, the worker's request-processing and poll loop, the basic and
strict sink receive loops, and the Shutdown methods.  Interaction with the
outside world (socket readiness, arriving messages) is made explicit as
function arguments; raising a Python exception is modelled with Except or a
dedicated result constructor.
-/

set_option maxHeartbeats 1000000

/-- Python dict built from a list of key-value pairs, as in dict(items) --
a later pair for the same key overwrites an earlier one.  Returns the value
the finished dict maps the key to. -/
def pyDictLookup (ps : List (Int × Int)) (k : Int) : Option Int :=
  ps.foldl (fun acc p => if p.1 = k then some p.2 else acc) none

/-- Connect (zmq_cluster.py lines 28-43): describes how to connect/bind a ZMQ
socket.  Socket option dictionaries are represented as insertion-ordered
key-value lists; defaults match the Python constructor defaults. -/
structure Connect where
  url : Option String := none
  type : Option Int := none
  bind : Bool := false
  options : Option (List (Int × Int)) := none
deriving DecidableEq

/-- The option items iterated by the setsockopt loop of Connect.MakeSocket
(lines 70-83).  Faithful to the source: a none caller argument is first
replaced by an empty dict; when the descriptor's own options are present the
source evaluates dict(options.items() + self.options.items()), so the
descriptor's items are concatenated after the caller's.  The inner none
branch mirrors the (unreachable) source branch at line 73. -/
def Connect.effectiveOptionItems (self : Connect)
    (options : Option (List (Int × Int))) : List (Int × Int) :=
  let options : Option (List (Int × Int)) :=
    if options = none then some [] else options
  match self.options with
  | none => options.getD []
  | some selfOpts =>
    match options with
    | none => selfOpts
    | some opts => opts ++ selfOpts

/-- The value MakeSocket ends up applying (via setsockopt) for a given option
key: the value the merged dict maps the key to. -/
def Connect.appliedOption (self : Connect)
    (options : Option (List (Int × Int))) (k : Int) : Option Int :=
  pyDictLookup (self.effectiveOptionItems options) k

/-- Ready instant recorded by BasicVentilator.Setup (line 126):
self.connect delay attribute is set to time.time() + self.worker_connect_delay.
Time is modelled in integral units. -/
def BasicVentilator.setupConnectDelay (now workerConnectDelay : Int) : Int :=
  now + workerConnectDelay

/-- Sleep performed by BasicVentilator.Send (lines 142-144):
time_delta = time.time() - self._connect_delay, and time.sleep(time_delta) is
called exactly when time_delta is positive.  Returns the slept duration. -/
def BasicVentilator.sendSleep (now connectDelay : Int) : Int :=
  let timeDelta := now - connectDelay
  if timeDelta > 0 then timeDelta else 0

/-- ClusterResult (lines 255-269): the result envelope.  All three fields
default to Python None, modelled as Option.none. -/
structure ClusterResult (Pay Exn : Type) where
  status : Option String := none
  payload : Option Pay := none
  exception : Option Exn := none
deriving DecidableEq

/-- ClusterResult.STATUS_SUCCESS (line 265). -/
def ClusterResult.STATUS_SUCCESS : String := "OK"

/-- ClusterResult.STATUS_FAIL (line 266). -/
def ClusterResult.STATUS_FAIL : String := "FAIL"

/-- Kill command accepted by the worker (line 288). -/
def Worker.CMD_KILL : String := "CLUSTER_WORKER_KILL"

/-- Kill command accepted by the sink (line 161). -/
def BasicSink.CMD_KILL : String := "CLUSTER_SINK_KILL"

/-- Worker.Run, request-processing block (lines 337-347): a fresh
ClusterResult is filled in by applying the user callback inside try/except.
A callback that raises is modelled as returning Except.error; the assignment
to result.payload then never happens, and the except branch records the
exception and the FAIL status.  On success the callback's Python return
value -- which may itself be Python None, modelled as Option.none -- is
assigned to result.payload unchanged, so a callback returning None leaves
the payload field indistinguishable from its unset default. -/
def Worker.processRequest {Req Pay Exn : Type}
    (callback : Req → Except Exn (Option Pay)) (request : Req) :
    ClusterResult Pay Exn :=
  match callback request with
  | Except.ok v =>
    { status := some ClusterResult.STATUS_SUCCESS, payload := v }
  | Except.error e =>
    { status := some ClusterResult.STATUS_FAIL, exception := some e }

/-- What a single poll of Worker.Run (line 333) reported: the request ready on
the receiver socket, if any, and the command ready on the command subscriber,
if any. -/
structure WorkerPoll (Req : Type) where
  request : Option Req
  command : Option String

/-- Observable actions of one iteration of the Worker.Run loop, in program
order. -/
inductive WorkerAction (Pay Exn : Type)
  | sendResult (r : ClusterResult Pay Exn)
  | examineCommand (cmd : String)
deriving DecidableEq

/-- How one loop iteration of Worker.Run or BasicSink.Receive ends: with a
ReceiverTimeoutException, with the loop continuing, or with break. -/
inductive StepOutcome
  | timeoutRaised
  | continueLoop
  | killed
deriving DecidableEq

/-- One iteration of the Worker.Run loop body (lines 332-354), given what the
poll reported.  An empty poll raises ReceiverTimeoutException (line 335);
otherwise the receiver socket is serviced first (lines 336-348) and only then
is the command socket examined (lines 349-354). -/
def Worker.runStep {Req Pay Exn : Type}
    (callback : Req → Except Exn (Option Pay)) (poll : WorkerPoll Req) :
    List (WorkerAction Pay Exn) × StepOutcome :=
  if poll.request.isNone && poll.command.isNone then ([], StepOutcome.timeoutRaised)
  else
    let dataActs : List (WorkerAction Pay Exn) :=
      match poll.request with
      | some req => [WorkerAction.sendResult (Worker.processRequest callback req)]
      | none => []
    match poll.command with
    | some cmd =>
      (dataActs ++ [WorkerAction.examineCommand cmd],
        if cmd = Worker.CMD_KILL then StepOutcome.killed else StepOutcome.continueLoop)
    | none => (dataActs, StepOutcome.continueLoop)

/-- What a single poll of BasicSink.Receive (line 222) reported. -/
structure SinkPoll (Res : Type) where
  result : Option Res
  command : Option String

/-- Observable actions of one iteration of the BasicSink.Receive loop, in
program order. -/
inductive SinkAction (Res : Type)
  | yieldResult (r : Res)
  | examineCommand (cmd : String)
deriving DecidableEq

/-- One iteration of the BasicSink.Receive loop body (lines 218-237), given
what the poll reported: an empty poll raises ReceiverTimeoutException
(line 225); otherwise the result socket is serviced (and its envelope
yielded) first (lines 226-230) and only then is the command socket examined
(lines 231-237). -/
def BasicSink.receiveStep {Res : Type} (poll : SinkPoll Res) :
    List (SinkAction Res) × StepOutcome :=
  if poll.result.isNone && poll.command.isNone then ([], StepOutcome.timeoutRaised)
  else
    let dataActs : List (SinkAction Res) :=
      match poll.result with
      | some r => [SinkAction.yieldResult r]
      | none => []
    match poll.command with
    | some cmd =>
      (dataActs ++ [SinkAction.examineCommand cmd],
        if cmd = BasicSink.CMD_KILL then StepOutcome.killed else StepOutcome.continueLoop)
    | none => (dataActs, StepOutcome.continueLoop)

/-- WorkerException (lines 22-26): its class attribute worker_exception
defaults to Python None and documents the exception object thrown in the
worker process. -/
structure WorkerException (Exn : Type) where
  message : String
  worker_exception : Option Exn := none
deriving DecidableEq

/-- Python str() applied to an optional exception object, as used by the
percent-s formatting at lines 279-280; formatting Python None yields the
string None. -/
def pyStr {Exn : Type} (str : Exn → String) : Option Exn → String
  | some e => str e
  | none => "None"

/-- The WorkerException constructed by Sink.Receive (lines 279-280): only a
formatted message is passed to the constructor; the worker_exception
attribute is never assigned and keeps its class default of None. -/
def Sink.mkWorkerException {Exn : Type} (str : Exn → String)
    (exc : Option Exn) : WorkerException Exn :=
  { message := "Caught exception in worker node: " ++ pyStr str exc }

/-- Sink.Receive (lines 275-282) as a function of the envelopes the basic
sink's generator yields, in order: each envelope whose status is
STATUS_SUCCESS has its payload yielded; the first envelope with any other
status raises a WorkerException, ending the iteration (envelopes after it
are never consumed).  Returns the yielded payloads and the raised exception,
if any. -/
def Sink.receiveStrict {Pay Exn : Type} (str : Exn → String) :
    List (ClusterResult Pay Exn) → List (Option Pay) × Option (WorkerException Exn)
  | [] => ([], none)
  | r :: rest =>
    if r.status = some ClusterResult.STATUS_SUCCESS then
      ((Sink.receiveStrict str rest).1.cons r.payload, (Sink.receiveStrict str rest).2)
    else
      ([], some (Sink.mkWorkerException str r.exception))

/-- Result of a single pyzmq Poller.poll call in an environment where the
first socket event becomes available after a known delay. -/
inductive PollOutcome
  | ready
  | empty
  | blocked
deriving DecidableEq

/-- pyzmq Poller.poll semantics, the external primitive invoked at lines 222
and 333.  A timeout of Python None, or a negative timeout, is passed to
zmq_poll as -1 and waits indefinitely for an event; a timeout of 0 returns
immediately; a positive timeout t waits at most t milliseconds.  readyAt is
the delay (same units) until some registered socket has an event, none if no
event ever arrives; blocked means the call never returns. -/
def Poller.poll (timeout : Option Int) (readyAt : Option Int) : PollOutcome :=
  let t : Int :=
    match timeout with
    | none => -1
    | some t => if t < 0 then -1 else t
  if t = -1 then
    match readyAt with
    | none => PollOutcome.blocked
    | some _ => PollOutcome.ready
  else
    match readyAt with
    | none => PollOutcome.empty
    | some r => if r ≤ t then PollOutcome.ready else PollOutcome.empty

/-- How the poll-and-check prologue of a receive loop iteration ends. -/
inductive RecvPollStep
  | raiseTimeout
  | proceed
  | blockForever
deriving DecidableEq

/-- The shared prologue of Worker.Run (lines 333-335) and BasicSink.Receive
(lines 222-225): poll with the configured timeout, and raise
ReceiverTimeoutException when the poll returns with no socket ready. -/
def recvPollStep (timeout readyAt : Option Int) : RecvPollStep :=
  match Poller.poll timeout readyAt with
  | PollOutcome.blocked => RecvPollStep.blockForever
  | PollOutcome.empty => RecvPollStep.raiseTimeout
  | PollOutcome.ready => RecvPollStep.proceed

/-- Worker.Run's poll prologue (lines 333-335) with the worker's configured
receiver_timeout. -/
def Worker.runPoll (receiver_timeout readyAt : Option Int) : RecvPollStep :=
  recvPollStep receiver_timeout readyAt

/-- Timeout defaulting in BasicSink.Receive (lines 216-217): a None timeout
argument is replaced by the sink's configured receive_timeout. -/
def BasicSink.effectiveTimeout (receive_timeout timeout : Option Int) : Option Int :=
  match timeout with
  | none => receive_timeout
  | some t => some t

/-- BasicSink.Receive's poll prologue (lines 216-225). -/
def BasicSink.receivePoll (receive_timeout timeout readyAt : Option Int) : RecvPollStep :=
  recvPollStep (BasicSink.effectiveTimeout receive_timeout timeout) readyAt

/-- The instance attributes of a BasicSink that Setup, Receive and Shutdown
touch: the _ready flag and, for each of _poller, _receiver_socket and
_command_socket, whether the attribute currently exists on the instance
(Python del removes an attribute; del of a missing attribute raises
AttributeError), together with the configured receive_timeout. -/
structure BasicSinkState where
  ready : Bool
  hasPoller : Bool
  hasReceiverSocket : Bool
  hasCommandSocket : Bool
  receive_timeout : Option Int
deriving DecidableEq

/-- Python exception kinds raised by the state-manipulating methods. -/
inductive PyError
  | attributeError
deriving DecidableEq

/-- BasicSink.Setup (lines 178-199): creates the poller and sockets (the
_command_socket attribute is assigned even when no command receiver is
configured, line 186) and sets _ready. -/
def BasicSink.Setup (st : BasicSinkState) : BasicSinkState :=
  { st with
    ready := true
    hasPoller := true
    hasReceiverSocket := true
    hasCommandSocket := true }

/-- BasicSink.Shutdown (lines 201-204): del self._poller,
del self._receiver_socket, del self._command_socket, in that order; deleting
a missing attribute raises AttributeError.  The _ready flag is not reset. -/
def BasicSink.Shutdown (st : BasicSinkState) : Except PyError BasicSinkState :=
  if st.hasPoller then
    if st.hasReceiverSocket then
      if st.hasCommandSocket then
        Except.ok { st with
          hasPoller := false
          hasReceiverSocket := false
          hasCommandSocket := false }
      else Except.error PyError.attributeError
    else Except.error PyError.attributeError
  else Except.error PyError.attributeError

/-- The instance attributes of a BasicVentilator that Setup, Send and
Shutdown touch: the _ready flag and whether the _sender attribute exists
(it is first assigned in Setup, line 123). -/
structure BasicVentilatorState where
  ready : Bool
  hasSender : Bool
deriving DecidableEq

/-- BasicVentilator.Shutdown (lines 130-132): del self._sender (AttributeError
when the attribute does not exist), then _ready is set to False. -/
def BasicVentilator.Shutdown (st : BasicVentilatorState) :
    Except PyError BasicVentilatorState :=
  if st.hasSender then Except.ok { ready := false, hasSender := false }
  else Except.error PyError.attributeError

/-- How a run of the BasicSink.Receive generator over a finite script of poll
reports ends: with a ReceiverTimeoutException, with normal termination
(result bound reached or kill command), or still running with the script
exhausted.  Each constructor carries the envelopes yielded before that
point, in order. -/
inductive SinkRecvResult (Res : Type)
  | timeoutRaised (yielded : List Res)
  | terminated (yielded : List Res)
  | pending (yielded : List Res)
deriving DecidableEq

/-- Prefix a yielded envelope onto the outcome of the rest of the run. -/
def SinkRecvResult.prepend {Res : Type} (r : Res) :
    SinkRecvResult Res → SinkRecvResult Res
  | SinkRecvResult.timeoutRaised ys => SinkRecvResult.timeoutRaised (r :: ys)
  | SinkRecvResult.terminated ys => SinkRecvResult.terminated (r :: ys)
  | SinkRecvResult.pending ys => SinkRecvResult.pending (r :: ys)

/-- The bound check at line 219: num_results is not None and idx has reached
it. -/
def BasicSink.numResultsReached (num_results : Option Nat) (idx : Nat) : Bool :=
  match num_results with
  | some n => idx ≥ n
  | none => false

/-- The while loop of BasicSink.Receive (lines 218-238) over a finite script
of poll reports: check the result bound; poll; raise
ReceiverTimeoutException on an empty poll; service the result socket first
(yield, increment idx); then examine the command socket, breaking on
CMD_KILL and ignoring unrecognized commands. -/
def BasicSink.receiveLoop {Res : Type} (num_results : Option Nat) :
    Nat → List (SinkPoll Res) → SinkRecvResult Res
  | idx, [] =>
    if BasicSink.numResultsReached num_results idx then SinkRecvResult.terminated []
    else SinkRecvResult.pending []
  | idx, p :: rest =>
    if BasicSink.numResultsReached num_results idx then SinkRecvResult.terminated []
    else if p.result.isNone && p.command.isNone then SinkRecvResult.timeoutRaised []
    else
      match p.result, p.command with
      | some r, some cmd =>
        if cmd = BasicSink.CMD_KILL then SinkRecvResult.terminated [r]
        else SinkRecvResult.prepend r
          (BasicSink.receiveLoop num_results (idx + 1) rest)
      | some r, none =>
        SinkRecvResult.prepend r (BasicSink.receiveLoop num_results (idx + 1) rest)
      | none, some cmd =>
        if cmd = BasicSink.CMD_KILL then SinkRecvResult.terminated []
        else BasicSink.receiveLoop num_results idx rest
      | none, none => SinkRecvResult.timeoutRaised []

/-- BasicSink.Receive (lines 206-238) as an operation on the sink object's
state: run Setup if not yet ready (lines 213-214), then run the receive loop
over the given script of poll reports.  The loop itself never mutates the
object's attributes, so the returned state differs from the input state only
through the lazy Setup. -/
def BasicSink.Receive {Res : Type} (st : BasicSinkState) (num_results : Option Nat)
    (polls : List (SinkPoll Res)) : BasicSinkState × SinkRecvResult Res :=
  let st := if st.ready then st else BasicSink.Setup st
  (st, BasicSink.receiveLoop num_results 0 polls)

/-- C1: the claim states that when an endpoint descriptor with non-null
options is materialized with caller-supplied override options, the applied
option set is the key-union with the caller winning on conflicting keys.
The source (and its own docstring, which says arguments take precedence)
intends this, but dict(options.items() + self.options.items()) at line 76
puts the descriptor's items last, so the descriptor's value is the one
applied on a conflicting key.  At descriptor options [(1, 10)] and caller
options [(1, 20), (2, 7)], key 1 receives the descriptor's value 10, not the
caller's 20; the union of keys is otherwise respected (key 2 receives 7 and
an absent key receives nothing). -/
theorem C1_descriptor_value_wins_conflict :
    Connect.appliedOption { options := some [(1, 10)] } (some [(1, 20), (2, 7)]) 1
      = some 10 ∧
    Connect.appliedOption { options := some [(1, 10)] } (some [(1, 20), (2, 7)]) 2
      = some 7 ∧
    Connect.appliedOption { options := some [(1, 10)] } (some [(1, 20), (2, 7)]) 3
      = none := by
  decide

/-- C2: the claim states that Setup records ready instant now plus the
worker-connect delay and that a Send before that instant sleeps until it
while a Send at or after it does not sleep.  The source computes
time_delta = now - connect_delay (line 142) and sleeps exactly when that is
positive, which is sign-inverted: with Setup at time 10 and delay 1 (ready
instant 11), a Send at time 10 sleeps 0 (the claim requires sleeping 1 unit,
until 11), and a Send at time 13 sleeps 2 (the claim requires no sleep). -/
theorem C2_send_sleep_sign_inverted :
    BasicVentilator.setupConnectDelay 10 1 = 11 ∧
    BasicVentilator.sendSleep 10 (BasicVentilator.setupConnectDelay 10 1) = 0 ∧
    BasicVentilator.sendSleep 13 (BasicVentilator.setupConnectDelay 10 1) = 2 := by
  decide

/-- C3 counterexample: the claim states that for every callback the produced
envelope has status SUCCESS iff its payload field is populated.  A callback
that returns Python None is assigned to result.payload unchanged (line 341),
producing an envelope with status SUCCESS whose payload and exception fields
are both None: status is SUCCESS but the payload is not populated, refuting
the claimed biconditional at that envelope. -/
theorem C3_none_payload_counterexample :
    Worker.processRequest
        (fun _ : Nat => (Except.ok none : Except String (Option Nat))) 0 =
      { status := some ClusterResult.STATUS_SUCCESS, payload := none,
        exception := none } ∧
    ¬ ((Worker.processRequest
          (fun _ : Nat => (Except.ok none : Except String (Option Nat))) 0).status
            = some ClusterResult.STATUS_SUCCESS
        ↔ (Worker.processRequest
            (fun _ : Nat => (Except.ok none : Except String (Option Nat))) 0).payload
            ≠ none) := by
  decide

/-- C3 amended: for every callback and every request, whether the callback
returns or raises, the envelope built by the worker satisfies: status is
SUCCESS iff the exception field is absent; the payload field equals the
callback's returned value on success and is absent on a raise; and a
populated payload occurs only with status SUCCESS -- so the original
three-way biconditional fails only for a callback that returns None, which
yields status SUCCESS with payload and exception both absent. -/
theorem C3_envelope_discipline_amended {Req Pay Exn : Type}
    (callback : Req → Except Exn (Option Pay)) (req : Req) :
    ((Worker.processRequest callback req).status = some ClusterResult.STATUS_SUCCESS
      ↔ (Worker.processRequest callback req).exception = none) ∧
    (Worker.processRequest callback req).payload = (callback req).toOption.join ∧
    ((Worker.processRequest callback req).status = some ClusterResult.STATUS_SUCCESS
      ∨ (Worker.processRequest callback req).payload = none) := by
  have hne : ClusterResult.STATUS_FAIL ≠ ClusterResult.STATUS_SUCCESS := by decide
  cases h : callback req with
  | ok v => simp [Worker.processRequest, h, Except.toOption, Option.join]
  | error e => simp [Worker.processRequest, h, hne, Except.toOption, Option.join]

/-- C4: for every callback and request, if the callback raises then the
exception is caught inside the worker loop: the iteration emits exactly one
envelope, with status FAIL and carrying the exception, and the loop outcome
is to continue with the next poll (both when only the data socket is ready
and when a non-kill command is simultaneously ready). -/
theorem C4_callback_totality {Req Pay Exn : Type}
    (callback : Req → Except Exn (Option Pay)) (req : Req) (e : Exn)
    (cmd : String) (h : callback req = Except.error e)
    (hc : cmd ≠ Worker.CMD_KILL) :
    Worker.runStep callback { request := some req, command := none } =
      ([WorkerAction.sendResult
          { status := some ClusterResult.STATUS_FAIL, payload := none,
            exception := some e }],
        StepOutcome.continueLoop) ∧
    Worker.runStep callback { request := some req, command := some cmd } =
      ([WorkerAction.sendResult
          { status := some ClusterResult.STATUS_FAIL, payload := none,
            exception := some e },
        WorkerAction.examineCommand cmd],
        StepOutcome.continueLoop) := by
  constructor <;> simp [Worker.runStep, Worker.processRequest, h, hc]

/-- C4 witness: the theorem applied to the constantly-raising callback on
request 0 with the non-kill command stop. -/
theorem C4_callback_totality_witness :
    ((fun _ : Nat => (Except.error "boom" : Except String (Option Nat))) 0
      = Except.error "boom") ∧
    ("stop" ≠ Worker.CMD_KILL) ∧
    (Worker.runStep (fun _ : Nat => (Except.error "boom" : Except String (Option Nat)))
        { request := some 0, command := none } =
      ([WorkerAction.sendResult
          { status := some ClusterResult.STATUS_FAIL, payload := none,
            exception := some "boom" }],
        StepOutcome.continueLoop) ∧
    Worker.runStep (fun _ : Nat => (Except.error "boom" : Except String (Option Nat)))
        { request := some 0, command := some "stop" } =
      ([WorkerAction.sendResult
          { status := some ClusterResult.STATUS_FAIL, payload := none,
            exception := some "boom" },
        WorkerAction.examineCommand "stop"],
        StepOutcome.continueLoop)) :=
  ⟨rfl, by decide,
    C4_callback_totality (fun _ : Nat => Except.error "boom") 0 "boom" "stop"
      rfl (by decide)⟩

/-- C5: for every sequence of envelopes consumed by the strict sink, every
leading SUCCESS envelope has only its payload yielded, and the first
non-SUCCESS envelope raises a WorkerException built from its serialized
exception, with the envelopes after it never consumed (the outcome does not
depend on them); a sequence of only SUCCESS envelopes yields all payloads
and raises nothing. -/
theorem C5_strict_sink_short_circuit {Pay Exn : Type} (str : Exn → String)
    (good : List (ClusterResult Pay Exn)) (bad : ClusterResult Pay Exn)
    (rest : List (ClusterResult Pay Exn))
    (hg : ∀ r ∈ good, r.status = some ClusterResult.STATUS_SUCCESS)
    (hb : bad.status ≠ some ClusterResult.STATUS_SUCCESS) :
    Sink.receiveStrict str (good ++ bad :: rest) =
      (good.map (fun r => r.payload),
        some (Sink.mkWorkerException str bad.exception)) ∧
    Sink.receiveStrict str good = (good.map (fun r => r.payload), none) := by
  induction good with
  | nil => simp [Sink.receiveStrict, hb]
  | cons r gs ih =>
    have hr : r.status = some ClusterResult.STATUS_SUCCESS := hg r (by simp)
    have hgs : ∀ x ∈ gs, x.status = some ClusterResult.STATUS_SUCCESS :=
      fun x hx => hg x (by simp [hx])
    obtain ⟨ih1, ih2⟩ := ih hgs
    simp [Sink.receiveStrict, hr, ih1, ih2]

/-- C5 witness: one SUCCESS envelope with payload 1, then a FAIL envelope
with description bad, then a trailing SUCCESS envelope that is never
consumed. -/
theorem C5_strict_sink_short_circuit_witness :
    (∀ r ∈ [({ status := some "OK", payload := some 1, exception := none } :
        ClusterResult Nat String)],
      r.status = some ClusterResult.STATUS_SUCCESS) ∧
    (({ status := some "FAIL", payload := none, exception := some "bad" } :
        ClusterResult Nat String).status ≠ some ClusterResult.STATUS_SUCCESS) ∧
    (Sink.receiveStrict id
        ([({ status := some "OK", payload := some 1, exception := none } :
            ClusterResult Nat String)] ++
          { status := some "FAIL", payload := none, exception := some "bad" } ::
          [{ status := some "OK", payload := some 2, exception := none }]) =
      ([some 1], some (Sink.mkWorkerException id (some "bad"))) ∧
    Sink.receiveStrict id
        [({ status := some "OK", payload := some 1, exception := none } :
          ClusterResult Nat String)] =
      ([some 1], none)) :=
  ⟨by decide, by decide,
    C5_strict_sink_short_circuit id _ _ _ (by decide) (by decide)⟩

/-- C6: in any iteration of the worker's Run loop and of the basic sink's
Receive loop in which the poll reports the data socket and the command
socket simultaneously ready, the trace of the iteration processes the data
message first (the worker sends the callback's result envelope, the sink
yields the envelope) and examines the command second; when the command is
the kill command the iteration still emits the data action before ending
with killed. -/
theorem C6_data_processed_before_command {Req Pay Exn Res : Type}
    (callback : Req → Except Exn (Option Pay)) (req : Req) (res : Res)
    (cmd : String) :
    Worker.runStep callback { request := some req, command := some cmd } =
      ([WorkerAction.sendResult (Worker.processRequest callback req),
        WorkerAction.examineCommand cmd],
        if cmd = Worker.CMD_KILL then StepOutcome.killed
        else StepOutcome.continueLoop) ∧
    BasicSink.receiveStep { result := some res, command := some cmd } =
      ([SinkAction.yieldResult res, SinkAction.examineCommand cmd],
        if cmd = BasicSink.CMD_KILL then StepOutcome.killed
        else StepOutcome.continueLoop) :=
  ⟨rfl, rfl⟩

/-- C7 counterexample: the claim states that a configured receive timeout of
zero, like an absent one, makes the poll block indefinitely rather than
raise.  In fact a zero timeout is passed to the poll primitive unchanged and
returns immediately: with no socket ready, both the worker loop and the sink
loop raise ReceiverTimeoutException at once, while only the absent (None)
timeout blocks. -/
theorem C7_zero_timeout_counterexample :
    Worker.runPoll (some 0) none = RecvPollStep.raiseTimeout ∧
    Worker.runPoll none none = RecvPollStep.blockForever ∧
    BasicSink.receivePoll (some 0) none none = RecvPollStep.raiseTimeout := by
  decide

/-- C7 amended: an absent (None) receive timeout causes the poll to block
indefinitely and never raise; a zero timeout returns immediately, raising
RECEIVER-TIMEOUT when no socket is ready and proceeding when one is; a
positive timeout raises RECEIVER-TIMEOUT exactly when no socket becomes
ready within it.  The same holds for the basic sink's poll. -/
theorem C7_timeout_semantics (readyAt : Option Int) (t r : Int) (ht : 0 < t) :
    Worker.runPoll none readyAt ≠ RecvPollStep.raiseTimeout ∧
    Worker.runPoll (some 0) none = RecvPollStep.raiseTimeout ∧
    Worker.runPoll (some 0) (some 0) = RecvPollStep.proceed ∧
    Worker.runPoll (some t) none = RecvPollStep.raiseTimeout ∧
    (Worker.runPoll (some t) (some r) = RecvPollStep.raiseTimeout ↔ t < r) ∧
    BasicSink.receivePoll none none readyAt ≠ RecvPollStep.raiseTimeout ∧
    BasicSink.receivePoll (some t) none none = RecvPollStep.raiseTimeout := by
  have h0 : ¬ t < 0 := by omega
  have h1 : ¬ ((if t < 0 then (-1 : Int) else t) = -1) := by rw [if_neg h0]; omega
  refine ⟨?_, by decide, by decide, ?_, ?_, ?_, ?_⟩
  · cases readyAt <;> simp [Worker.runPoll, recvPollStep, Poller.poll]
  · simp [Worker.runPoll, recvPollStep, Poller.poll, h1]
  · have h2 : (if t < 0 then (-1 : Int) else t) = t := if_neg h0
    have h3 : ¬ t = -1 := by omega
    by_cases hr : r ≤ t
    · have hpoll : Poller.poll (some t) (some r) = PollOutcome.ready := by
        simp [Poller.poll, h2, h3, hr]
      simp [Worker.runPoll, recvPollStep, hpoll]
      omega
    · have hpoll : Poller.poll (some t) (some r) = PollOutcome.empty := by
        simp [Poller.poll, h2, h3, hr]
      simp [Worker.runPoll, recvPollStep, hpoll]
      omega
  · cases readyAt <;>
      simp [BasicSink.receivePoll, BasicSink.effectiveTimeout, recvPollStep,
        Poller.poll]
  · simp [BasicSink.receivePoll, BasicSink.effectiveTimeout, recvPollStep,
      Poller.poll, h1]

/-- C7 witness: the amended theorem at a ready event arriving after 5
milliseconds and a positive timeout of 3 milliseconds. -/
theorem C7_timeout_semantics_witness :
    (0 : Int) < 3 ∧
    (Worker.runPoll none (some 5) ≠ RecvPollStep.raiseTimeout ∧
    Worker.runPoll (some 0) none = RecvPollStep.raiseTimeout ∧
    Worker.runPoll (some 0) (some 0) = RecvPollStep.proceed ∧
    Worker.runPoll (some 3) none = RecvPollStep.raiseTimeout ∧
    (Worker.runPoll (some 3) (some 5) = RecvPollStep.raiseTimeout ↔ (3 : Int) < 5) ∧
    BasicSink.receivePoll none none (some 5) ≠ RecvPollStep.raiseTimeout ∧
    BasicSink.receivePoll (some 3) none none = RecvPollStep.raiseTimeout) :=
  ⟨by decide, C7_timeout_semantics (some 5) 3 5 (by decide)⟩

/-- C8: for a set-up basic sink with a non-zero configured per-poll timeout,
a poll inside Receive that reports no ready socket (the poll primitive's
outcome when no envelope arrives within the window) makes Receive raise
ReceiverTimeoutException with nothing yielded, while leaving the sink object
exactly as it was (still ready, sockets intact); a subsequent Receive call
on the same object whose poll reports an envelope yields that envelope. -/
theorem C8_timeout_does_not_terminate {Res : Type} (st : BasicSinkState)
    (t : Int) (res : Res) (hready : st.ready = true)
    (ht : st.receive_timeout = some t) (ht0 : 0 < t) :
    Poller.poll (BasicSink.effectiveTimeout st.receive_timeout none) none =
      PollOutcome.empty ∧
    BasicSink.Receive st none ([{ result := none, command := none }] :
        List (SinkPoll Res)) = (st, SinkRecvResult.timeoutRaised []) ∧
    (BasicSink.Receive st none
        [({ result := some res, command := none } : SinkPoll Res)]).2 =
      SinkRecvResult.pending [res] := by
  refine ⟨?_, ?_, ?_⟩
  · have h0 : ¬ t < 0 := by omega
    have h1 : ¬ ((if t < 0 then (-1 : Int) else t) = -1) := by rw [if_neg h0]; omega
    simp [BasicSink.effectiveTimeout, ht, Poller.poll, h1]
  · simp [BasicSink.Receive, hready, BasicSink.receiveLoop,
      BasicSink.numResultsReached]
  · simp [BasicSink.Receive, hready, BasicSink.receiveLoop,
      BasicSink.numResultsReached, SinkRecvResult.prepend]

/-- C8 witness: a ready sink configured with a 100 millisecond timeout; the
empty poll raises, the state is unchanged, and a later Receive yields the
envelope 7. -/
theorem C8_timeout_does_not_terminate_witness :
    ((⟨true, true, true, true, some 100⟩ : BasicSinkState).ready = true) ∧
    ((⟨true, true, true, true, some 100⟩ : BasicSinkState).receive_timeout =
      some 100) ∧
    ((0 : Int) < 100) ∧
    (Poller.poll
        (BasicSink.effectiveTimeout
          (⟨true, true, true, true, some 100⟩ : BasicSinkState).receive_timeout
          none) none = PollOutcome.empty ∧
    BasicSink.Receive (⟨true, true, true, true, some 100⟩ : BasicSinkState) none
        ([{ result := none, command := none }] : List (SinkPoll Nat)) =
      (⟨true, true, true, true, some 100⟩, SinkRecvResult.timeoutRaised []) ∧
    (BasicSink.Receive (⟨true, true, true, true, some 100⟩ : BasicSinkState) none
        [({ result := some 7, command := none } : SinkPoll Nat)]).2 =
      SinkRecvResult.pending [7]) :=
  ⟨rfl, rfl, by decide,
    C8_timeout_does_not_terminate ⟨true, true, true, true, some 100⟩ 100 7
      rfl rfl (by decide)⟩

/-- C9 counterexample: the claim states that Shutdown is idempotent for
every ventilator and every sink.  On a set-up ventilator the first Shutdown
succeeds, but the second call executes del on the already-deleted _sender
attribute and raises AttributeError; likewise the sink's second Shutdown
raises AttributeError on the deleted _poller attribute. -/
theorem C9_second_shutdown_raises :
    BasicVentilator.Shutdown ⟨true, true⟩ = Except.ok ⟨false, false⟩ ∧
    BasicVentilator.Shutdown ⟨false, false⟩ =
      Except.error PyError.attributeError ∧
    BasicSink.Shutdown ⟨true, true, true, true, none⟩ =
      Except.ok ⟨true, false, false, false, none⟩ ∧
    BasicSink.Shutdown ⟨true, false, false, false, none⟩ =
      Except.error PyError.attributeError :=
  ⟨rfl, rfl, rfl, rfl⟩

/-- C9 amended: Shutdown is not idempotent: whenever a Shutdown call on a
ventilator or a sink succeeds, a second Shutdown call on the resulting
object raises AttributeError, because it deletes socket attributes that no
longer exist. -/
theorem C9_shutdown_not_idempotent (v w : BasicVentilatorState)
    (s u : BasicSinkState)
    (hv : BasicVentilator.Shutdown v = Except.ok w)
    (hs : BasicSink.Shutdown s = Except.ok u) :
    BasicVentilator.Shutdown w = Except.error PyError.attributeError ∧
    BasicSink.Shutdown u = Except.error PyError.attributeError := by
  constructor
  · by_cases h : v.hasSender
    · simp [BasicVentilator.Shutdown, h] at hv
      subst hv
      rfl
    · simp [BasicVentilator.Shutdown, h] at hv
  · by_cases h1 : s.hasPoller
    · by_cases h2 : s.hasReceiverSocket
      · by_cases h3 : s.hasCommandSocket
        · simp [BasicSink.Shutdown, h1, h2, h3] at hs
          subst hs
          simp [BasicSink.Shutdown]
        · simp [BasicSink.Shutdown, h1, h2, h3] at hs
      · simp [BasicSink.Shutdown, h1, h2] at hs
    · simp [BasicSink.Shutdown, h1] at hs

/-- C9 witness: the amended theorem at a set-up ventilator and a set-up
sink. -/
theorem C9_shutdown_not_idempotent_witness :
    (BasicVentilator.Shutdown ⟨true, true⟩ =
      Except.ok (⟨false, false⟩ : BasicVentilatorState)) ∧
    (BasicSink.Shutdown ⟨true, true, true, true, none⟩ =
      Except.ok (⟨true, false, false, false, none⟩ : BasicSinkState)) ∧
    (BasicVentilator.Shutdown ⟨false, false⟩ =
      Except.error PyError.attributeError ∧
    BasicSink.Shutdown ⟨true, false, false, false, none⟩ =
      Except.error PyError.attributeError) :=
  ⟨rfl, rfl,
    C9_shutdown_not_idempotent ⟨true, true⟩ ⟨false, false⟩
      ⟨true, true, true, true, none⟩ ⟨true, false, false, false, none⟩ rfl rfl⟩

/-- C10: whenever the strict sink's Receive raises a WorkerException, the
raised object carries the worker-side exception only as a string embedded in
its message; its worker_exception attribute, documented to hold the
exception object thrown in the worker process, is None. -/
theorem C10_worker_exception_stays_none {Pay Exn : Type} (str : Exn → String)
    (rs : List (ClusterResult Pay Exn)) (e : WorkerException Exn)
    (h : (Sink.receiveStrict str rs).2 = some e) :
    e.worker_exception = none ∧
    ∃ exc : Option Exn,
      e.message = "Caught exception in worker node: " ++ pyStr str exc := by
  induction rs with
  | nil => simp [Sink.receiveStrict] at h
  | cons r rest ih =>
    by_cases hr : r.status = some ClusterResult.STATUS_SUCCESS
    · simp [Sink.receiveStrict, hr] at h
      exact ih h
    · simp [Sink.receiveStrict, hr] at h
      subst h
      exact ⟨rfl, ⟨r.exception, rfl⟩⟩

/-- C10 witness: a single FAIL envelope with description boom; the raised
WorkerException has message Caught exception in worker node: boom and its
worker_exception attribute is None. -/
theorem C10_worker_exception_stays_none_witness :
    ((Sink.receiveStrict id
        [({ status := some "FAIL", payload := none, exception := some "boom" } :
          ClusterResult Nat String)]).2 =
      some ⟨"Caught exception in worker node: boom", none⟩) ∧
    ((⟨"Caught exception in worker node: boom", none⟩ :
        WorkerException String).worker_exception = none ∧
    ∃ exc : Option String,
      (⟨"Caught exception in worker node: boom", none⟩ :
        WorkerException String).message =
        "Caught exception in worker node: " ++ pyStr id exc) :=
  ⟨rfl, C10_worker_exception_stays_none id
    [({ status := some "FAIL", payload := none, exception := some "boom" } :
      ClusterResult Nat String)]
    ⟨"Caught exception in worker node: boom", none⟩ rfl⟩
